import Mathlib

/-!
Verification development for the teragon PluginParameters cross-thread
parameter-dispatch core.

Shallow embedding of:
- src/include/ConcurrentParameterSet.h (scheduleEvent routing, set/setScaled/
  setData facade, destructor order, asyncDispatcherCallback worker loop)
- src/include/PluginParameterSet.h (older variant: its scheduleEvent,
  destructor and asyncDispatcherCallback; the add/get collection methods)
- src/include/BlobParameter.h (setValue, getDisplayText, getData, getDataSize,
  getScaledValue)

EventDispatcher.h, Parameter.h and PluginParameter.h are not part of the
sources at hand; where their behaviour decides a property (the FIFO queue
drain and the observer notification fan-out) the corresponding definitions
are modelled from the spec and carry a doc comment saying so.

C++ double values (ParameterValue) carry no arithmetic in any property
considered here; they are modelled as rationals (Rat), an inert payload.
Raw pointers are modelled as Nat ids; NULL is Option.none.
-/

namespace PluginParameters

/-- Payload of a change record, mirroring the three Event subclasses
constructed by the facade: Event (plain value), ScaledEvent, DataEvent
(buffer pointer and byte count). -/
inductive EventPayload
  | plainValue (v : Rat)
  | scaledValue (v : Rat)
  | dataValue (buf : Option Nat) (size : Nat)
deriving DecidableEq, Repr

/-- A change record (class Event): target parameter identity, payload,
the isRealtime flag fixed at construction, and the optional sender
(originating observer) excluded from notification. -/
structure Event where
  target : Nat
  payload : EventPayload
  isRealtime : Bool
  sender : Option Nat
deriving DecidableEq, Repr

/-- The dynamic type of a parameter as far as the facade cares: its identity
and whether a dynamic_cast to DataParameter succeeds. -/
structure Parameter where
  id : Nat
  isDataParameter : Bool
deriving DecidableEq, Repr

/-- One call made by scheduleEvent on a dispatcher: EventDispatcher.add on
the realtime dispatcher, EventDispatcher.add on the async dispatcher, or
EventDispatcher.notify on the async dispatcher. -/
inductive SchedAction
  | addRealtime (e : Event)
  | addAsync (e : Event)
  | notifyAsync
deriving DecidableEq, Repr

/-- ConcurrentParameterSet.scheduleEvent (ConcurrentParameterSet.h lines
297-305): a realtime event is added to realtimeDispatcher; otherwise the
event is added to asyncDispatcher and asyncDispatcher.notify is called. -/
def cpsScheduleEvent (e : Event) : List SchedAction :=
  if e.isRealtime then
    [SchedAction.addRealtime e]
  else
    [SchedAction.addAsync e, SchedAction.notifyAsync]

/-- PluginParameterSet.scheduleEvent (PluginParameterSet.h lines 162-169):
a realtime event is added to realtimeDispatcher, otherwise the event is
added to asyncDispatcher; no notify call is made. -/
def ppsScheduleEvent (e : Event) : List SchedAction :=
  if e.isRealtime then
    [SchedAction.addRealtime e]
  else
    [SchedAction.addAsync e]

/-- The observable state the scheduleEvent calls act on: the two dispatcher
queues and the number of wake signals sent to the background waiter. -/
structure SchedState where
  realtimeQueue : List Event
  asyncQueue : List Event
  notifies : Nat
deriving DecidableEq, Repr

/-- Effect of a single dispatcher call on the two queues and the wake
counter: add appends FIFO, notify wakes the waiter. -/
def schedStep (s : SchedState) (a : SchedAction) : SchedState :=
  match a with
  | SchedAction.addRealtime e =>
      ⟨s.realtimeQueue ++ [e], s.asyncQueue, s.notifies⟩
  | SchedAction.addAsync e =>
      ⟨s.realtimeQueue, s.asyncQueue ++ [e], s.notifies⟩
  | SchedAction.notifyAsync =>
      ⟨s.realtimeQueue, s.asyncQueue, s.notifies + 1⟩

/-- Run a sequence of dispatcher calls in order. -/
def runSched (s : SchedState) (tr : List SchedAction) : SchedState :=
  tr.foldl schedStep s

/-- ConcurrentParameterSet.set(Parameter*, value, sender)
(ConcurrentParameterSet.h lines 168-171): schedules
new Event(parameter, value, true, sender). -/
def cpsSet (p : Parameter) (v : Rat) (sender : Option Nat) : List SchedAction :=
  cpsScheduleEvent ⟨p.id, EventPayload.plainValue v, true, sender⟩

/-- ConcurrentParameterSet.setScaled(Parameter*, value, sender)
(ConcurrentParameterSet.h lines 228-231): schedules
new ScaledEvent(parameter, value, true, sender). -/
def cpsSetScaled (p : Parameter) (v : Rat) (sender : Option Nat) : List SchedAction :=
  cpsScheduleEvent ⟨p.id, EventPayload.scaledValue v, true, sender⟩

/-- ConcurrentParameterSet.setData(Parameter*, data, dataSize, sender)
(ConcurrentParameterSet.h lines 288-294): if the dynamic_cast to
DataParameter succeeds, schedules new DataEvent(dataParameter, data,
dataSize, true, sender); otherwise the call does nothing. -/
def cpsSetData (p : Parameter) (buf : Option Nat) (size : Nat)
    (sender : Option Nat) : List SchedAction :=
  if p.isDataParameter then
    cpsScheduleEvent ⟨p.id, EventPayload.dataValue buf size, true, sender⟩
  else
    []

/-- Checks that every call in a trace is an add on the realtime dispatcher
of an event whose isRealtime flag is true. -/
def traceOnlyRealtime (tr : List SchedAction) : Bool :=
  tr.all fun a =>
    match a with
    | SchedAction.addRealtime e => e.isRealtime
    | SchedAction.addAsync _ => false
    | SchedAction.notifyAsync => false

/-- The events a trace enqueues (on either dispatcher), in order. -/
def eventsOfTrace (tr : List SchedAction) : List Event :=
  tr.filterMap fun a =>
    match a with
    | SchedAction.addRealtime e => some e
    | SchedAction.addAsync e => some e
    | SchedAction.notifyAsync => none

/-! ## Observer notification fan-out

Parameter.h is not among the sources at hand; the notification step is
modelled from the spec. -/

/-- Modelled from the spec: Parameter.h is missing, so the post-apply
notification fan-out is taken from the spec, which describes it as the
parameter's list of registered observers compared by identity against one
optional excluded originator reference; every registered observer other
than the originator is called. Observers are identities (Nat). -/
def notifyList (observers : List Nat) (origin : Option Nat) : List Nat :=
  observers.filter fun o => some o != origin

/-- Modelled from the spec: the observers notified when a change record is
applied to its target parameter, given the per-parameter observer
registration map; the record's sender is the excluded originator. -/
def recordNotifications (observers : Nat → List Nat) (e : Event) : List Nat :=
  notifyList (observers e.target) e.sender

/-- All notifications delivered when the events enqueued by a trace are
eventually drained and applied. -/
def traceNotifications (observers : Nat → List Nat)
    (tr : List SchedAction) : List Nat :=
  (eventsOfTrace tr).flatMap (recordNotifications observers)

/-! ## FIFO dispatcher drain machine

EventDispatcher.h is not among the sources at hand; the queue and its
drain are modelled from the spec. -/

/-- Parameter values indexed by parameter identity. -/
abbrev ParamState := Nat → Rat

/-- Modelled from the spec: applying one set record to the parameter state
stores the record's value into its target parameter (Parameter.h is
missing; the spec says a drained record is applied to its target
parameter). A record here is the (target, value) content of a set call. -/
def applySet (st : ParamState) (r : Nat × Rat) : ParamState :=
  fun t => if t = r.1 then r.2 else st t

/-- One dispatcher together with the parameter state it applies records
to: the pending FIFO queue and the current parameter values. -/
structure DispatchMachine where
  pending : List (Nat × Rat)
  values : ParamState

/-- An operation on a single dispatcher: enqueue one set record, or drain
(process) the queue. -/
inductive DispatchOp
  | enq (target : Nat) (v : Rat)
  | drain
deriving DecidableEq, Repr

/-- Modelled from the spec: EventDispatcher.h is missing, so add and
process follow the spec contract. add appends the record at the FIFO
tail; process (drain) removes the entire current queue contents and
applies each record in FIFO order, leaving the queue empty. -/
def dispStep (m : DispatchMachine) (op : DispatchOp) : DispatchMachine :=
  match op with
  | DispatchOp.enq t v => ⟨m.pending ++ [(t, v)], m.values⟩
  | DispatchOp.drain => ⟨[], m.pending.foldl applySet m.values⟩

/-- Run a finite sequence of enqueue and drain operations on one
dispatcher. -/
def runDispatch (m : DispatchMachine) (ops : List DispatchOp) : DispatchMachine :=
  ops.foldl dispStep m

/-- The set records a sequence of operations enqueues, in enqueue order. -/
def enqueuedRecords (ops : List DispatchOp) : List (Nat × Rat) :=
  ops.filterMap fun op =>
    match op with
    | DispatchOp.enq t v => some (t, v)
    | DispatchOp.drain => none

/-- Modelled from the spec: the reference semantics the claim compares
against, namely applying the same set calls synchronously, in the same
order, directly to the parameter state. -/
def synchronousRun (init : ParamState) (records : List (Nat × Rat)) : ParamState :=
  records.foldl applySet init

/-! ## Background worker loops -/

/-- One observable action of the background worker thread: a wait on the
dispatcher, or a call to dispatcher.process. -/
inductive WorkerAction
  | waitD
  | processD
deriving DecidableEq, Repr

/-- asyncDispatcherCallback of ConcurrentParameterSet.h (lines 40-52),
run over a finite sequence of wakes; each list entry is the value of
dispatcher.isKilled observed when the corresponding wait returns. The
loop waits, rechecks isKilled, calls process only if not killed, and the
while condition ends the loop once killed is observed (the kill flag is
set once and never cleared). -/
def cpsWorkerRun : List Bool → List WorkerAction
  | [] => []
  | killed :: rest =>
      WorkerAction.waitD ::
        (if killed then [] else WorkerAction.processD :: cpsWorkerRun rest)

/-- asyncDispatcherCallback of PluginParameterSet.h (lines 39-45), run
over the same finite wake model: the loop waits then calls process
unconditionally, with no isKilled check between the wake and the process
call; only the while condition before the next wait consults the flag. -/
def ppsWorkerRun : List Bool → List WorkerAction
  | [] => []
  | killed :: rest =>
      WorkerAction.waitD :: WorkerAction.processD ::
        (if killed then [] else ppsWorkerRun rest)

/-! ## Destructor action sequences -/

/-- One step taken while a parameter set is destroyed. teardownMembers
stands for the implicit C++ destruction of the owned members
(dispatchers, queues, parameter map and list) that runs after the
destructor body. -/
inductive DtorAction
  | killAsync
  | joinWorker
  | deleteParam (i : Nat)
  | teardownMembers
deriving DecidableEq, Repr

/-- ConcurrentParameterSet destructor (ConcurrentParameterSet.h lines
100-103): asyncDispatcher.kill(), then asyncDispatcherThread.join(), then
the implicit member teardown. -/
def cpsDtorActions : List DtorAction :=
  [DtorAction.killAsync, DtorAction.joinWorker, DtorAction.teardownMembers]

/-- PluginParameterSet destructor (PluginParameterSet.h lines 66-73) for a
set holding n parameters: asyncDispatcherThread.join(), then delete of
each parameter in the list, then the implicit member teardown; no kill
call appears anywhere in the body. -/
def ppsDtorActions (n : Nat) : List DtorAction :=
  [DtorAction.joinWorker] ++ (List.range n).map DtorAction.deleteParam ++
    [DtorAction.teardownMembers]

/-! ## BlobParameter (src/include/BlobParameter.h)

Pointers are Nat ids into a small heap; NULL is Option.none. malloc hands
out heap.nextId and bumps it, so every pointer ever returned by the
allocator is below nextId and each malloc result is fresh. free releases
the old block; its bytes are never read again by this class, so the model
leaves the stored contents in place. -/

/-- The heap backing BlobParameter allocations: byte contents per pointer
id, and the next id malloc will hand out. -/
structure Heap where
  contents : Nat → List Nat
  nextId : Nat

/-- The two data members of BlobParameter (BlobParameter.h lines 72-74):
the stored data pointer (none = NULL) and dataSize. The constructor
(lines 35-37) stores its inData and inDataSize arguments as given, with
defaults NULL and 0. -/
structure Blob where
  data : Option Nat
  dataSize : Nat
deriving DecidableEq, Repr

/-- BlobParameter constructor defaults: data = NULL, dataSize = 0. -/
def blobDefault : Blob := ⟨none, 0⟩

/-- BlobParameter.getDisplayText (lines 41-43): "(Data)" when the data
pointer is non-NULL and dataSize > 0, else "(Null)". -/
def getDisplayText (b : Blob) : String :=
  if b.data.isSome && decide (b.dataSize > 0) then "(Data)" else "(Null)"

/-- BlobParameter.getScaledValue (lines 45-47): always 0.0. -/
def getScaledValue (_ : Blob) : Rat := 0

/-- BlobParameter.getData (lines 49-51): the stored pointer. -/
def getData (b : Blob) : Option Nat := b.data

/-- BlobParameter.getDataSize (lines 53-55): the stored size. -/
def getDataSize (b : Blob) : Nat := b.dataSize

/-- BlobParameter.setValue (BlobParameter.h lines 59-70). If inData is
NULL or inDataSize is 0 the call returns immediately. Otherwise the old
block (if any) is freed, a fresh block of inDataSize bytes is allocated,
dataSize is set to inDataSize and the first inDataSize bytes of the input
buffer are copied into the fresh block, whose pointer is stored. -/
def blobSetValue (h : Heap) (b : Blob) (inData : Option Nat)
    (inDataSize : Nat) : Heap × Blob :=
  if inData.isNone || inDataSize == 0 then
    (h, b)
  else
    let src : List Nat :=
      match inData with
      | some q => h.contents q
      | none => []
    let p := h.nextId
    (⟨fun x => if x = p then src.take inDataSize else h.contents x, p + 1⟩,
     ⟨some p, inDataSize⟩)

/-! ## PluginParameterSet collection (src/include/PluginParameterSet.h)

PluginParameter.h is missing, so a parameter is modelled as its name,
and makeSafeName is an arbitrary function (the development is quantified
over it); getSafeName derives the safe name from the name via
makeSafeName, which is how the safe name stored at insertion and the key
probed by get coincide. The std::map is represented as an association
list with unique keys; std::map iteration order does not matter to any
property here. -/

/-- A parameter as the collection sees it: its name. -/
structure PluginParameter where
  name : String
deriving DecidableEq, Repr

/-- PluginParameter.getSafeName: the safe name derived from the name by
makeSafeName (msn). -/
def getSafeName (msn : String → String) (p : PluginParameter) : String :=
  msn p.name

/-- The two containers of PluginParameterSet (lines 173-177): the map from
safe name to parameter and the insertion-ordered list. -/
structure PluginParameterSet where
  parameterMap : List (String × PluginParameter)
  parameterList : List PluginParameter
deriving DecidableEq, Repr

/-- PluginParameterSet.get(name) (lines 137-140): look up
makeSafeName(name) in parameterMap; the found parameter, or NULL. -/
def psGet (msn : String → String) (s : PluginParameterSet)
    (name : String) : Option PluginParameter :=
  match s.parameterMap.find? (fun kv => kv.1 == msn name) with
  | some kv => some kv.2
  | none => none

/-- PluginParameterSet.size (line 97): the list length. -/
def psSize (s : PluginParameterSet) : Nat := s.parameterList.length

/-- PluginParameterSet.add(parameter) (lines 85-92): NULL in, or a
parameter whose name resolves to an existing entry, returns NULL and
changes nothing; otherwise the pair (getSafeName, parameter) is inserted
into parameterMap, the parameter is appended to parameterList, and the
parameter is returned. -/
def psAdd (msn : String → String) (s : PluginParameterSet)
    (parameter : Option PluginParameter) :
    Option PluginParameter × PluginParameterSet :=
  match parameter with
  | none => (none, s)
  | some p =>
      if (psGet msn s p.name).isSome then
        (none, s)
      else
        (some p,
         ⟨s.parameterMap ++ [(getSafeName msn p, p)],
          s.parameterList ++ [p]⟩)

/-! ## Theorems -/

/-- Claim C3 counterexample: PluginParameterSet.scheduleEvent, one of the
cited scheduleEvent implementations, adds a non-realtime record to the
async dispatcher without any notify call afterwards, so the record is not
followed by a wake signal. -/
theorem c3_pps_counterexample :
    ppsScheduleEvent ⟨0, EventPayload.plainValue 0, false, none⟩ =
      [SchedAction.addAsync ⟨0, EventPayload.plainValue 0, false, none⟩] ∧
    SchedAction.notifyAsync ∉
      ppsScheduleEvent ⟨0, EventPayload.plainValue 0, false, none⟩ := by
  decide

/-- Claim C3 (amended): ConcurrentParameterSet.scheduleEvent routes every
record by its isRealtime flag: a realtime record is appended to the
realtime dispatcher queue and nothing else happens; any other record is
appended to the async dispatcher queue and exactly one wake signal is
then sent to the background waiter. -/
theorem c3_cps_routing (e : Event) (s : SchedState) :
    runSched s (cpsScheduleEvent e) =
      if e.isRealtime then
        ⟨s.realtimeQueue ++ [e], s.asyncQueue, s.notifies⟩
      else
        ⟨s.realtimeQueue, s.asyncQueue ++ [e], s.notifies + 1⟩ := by
  cases h : e.isRealtime <;>
    simp [cpsScheduleEvent, runSched, schedStep, h]

/-- Claim C4: every record produced by ConcurrentParameterSet.set,
setScaled and setData is constructed with its realtime flag true and is
added to the realtime dispatcher only; the async dispatcher queue and the
wake counter are untouched by all three calls. -/
theorem c4_facade_realtime (p : Parameter) (v : Rat) (buf : Option Nat)
    (size : Nat) (sender : Option Nat) (s : SchedState) :
    traceOnlyRealtime (cpsSet p v sender) = true ∧
    (runSched s (cpsSet p v sender)).asyncQueue = s.asyncQueue ∧
    (runSched s (cpsSet p v sender)).notifies = s.notifies ∧
    traceOnlyRealtime (cpsSetScaled p v sender) = true ∧
    (runSched s (cpsSetScaled p v sender)).asyncQueue = s.asyncQueue ∧
    (runSched s (cpsSetScaled p v sender)).notifies = s.notifies ∧
    traceOnlyRealtime (cpsSetData p buf size sender) = true ∧
    (runSched s (cpsSetData p buf size sender)).asyncQueue = s.asyncQueue ∧
    (runSched s (cpsSetData p buf size sender)).notifies = s.notifies := by
  cases hp : p.isDataParameter <;>
    simp [cpsSet, cpsSetScaled, cpsSetData, cpsScheduleEvent, hp,
      traceOnlyRealtime, runSched, schedStep]

/-- Claim C5 evaluation: the PluginParameterSet destructor action sequence
contains no kill of the async dispatcher (it only joins, then deletes
parameters and tears down members), whereas the ConcurrentParameterSet
destructor kills, then joins, then tears members down. -/
theorem c5_dtor_eval :
    DtorAction.killAsync ∉ ppsDtorActions 3 ∧
    cpsDtorActions =
      [DtorAction.killAsync, DtorAction.joinWorker,
       DtorAction.teardownMembers] := by
  decide

/-- Claim C6 evaluation: when the kill flag is already set at the moment
the PluginParameterSet worker wakes from wait, that worker still calls
process, while the ConcurrentParameterSet worker does not process after
observing the kill. -/
theorem c6_worker_eval :
    WorkerAction.processD ∈ ppsWorkerRun [true] ∧
    WorkerAction.processD ∉ cpsWorkerRun [true] := by
  decide

/-- Claim C7: a setData call whose target fails the dynamic_cast to
DataParameter schedules nothing: the emitted dispatcher-call trace is
empty, both dispatcher queues and the wake counter are unchanged, and no
observer notification ever results from the call. -/
theorem c7_setdata_noop (p : Parameter) (buf : Option Nat) (size : Nat)
    (sender : Option Nat) (s : SchedState) (observers : Nat → List Nat)
    (h : p.isDataParameter = false) :
    cpsSetData p buf size sender = [] ∧
    runSched s (cpsSetData p buf size sender) = s ∧
    traceNotifications observers (cpsSetData p buf size sender) = [] := by
  simp [cpsSetData, h, runSched, traceNotifications, eventsOfTrace]

/-- Claim C7 witness: a concrete non-data parameter, concrete state and
observers. -/
theorem c7_witness :
    cpsSetData ⟨0, false⟩ none 4 none = [] ∧
    runSched ⟨[], [], 0⟩ (cpsSetData ⟨0, false⟩ none 4 none) = ⟨[], [], 0⟩ ∧
    traceNotifications (fun _ => [1, 2]) (cpsSetData ⟨0, false⟩ none 4 none) = [] :=
  c7_setdata_noop ⟨0, false⟩ none 4 none ⟨[], [], 0⟩ (fun _ => [1, 2]) rfl

/-- Claim C8: BlobParameter.setValue with a NULL buffer or a zero length
returns immediately; the heap, the stored data pointer and dataSize are
all unchanged. -/
theorem c8_drop (h : Heap) (b : Blob) (inData : Option Nat)
    (inDataSize : Nat) (hdrop : inData = none ∨ inDataSize = 0) :
    blobSetValue h b inData inDataSize = (h, b) := by
  rcases hdrop with h1 | h1 <;> simp [blobSetValue, h1]

/-- Claim C8 witness: a NULL buffer with a positive length on a concrete
heap and blob. -/
theorem c8_witness :
    blobSetValue ⟨fun _ => [], 0⟩ blobDefault none 5 =
      (⟨fun _ => [], 0⟩, blobDefault) :=
  c8_drop ⟨fun _ => [], 0⟩ blobDefault none 5 (Or.inl rfl)

/-- Claim C2: applying a record whose sender is non-null delivers zero
notifications to the sender, and every other observer receives exactly as
many notifications as it has registrations on the target parameter. -/
theorem c2_sender_exclusion (observers : Nat → List Nat) (t : Nat)
    (payload : EventPayload) (rt : Bool) (s : Nat) (o : Nat) :
    (recordNotifications observers ⟨t, payload, rt, some s⟩).count o =
      if o = s then 0 else (observers t).count o := by
  unfold recordNotifications notifyList
  rcases eq_or_ne o s with rfl | hne
  · rw [if_pos rfl, List.count_eq_zero]
    intro hmem
    rcases List.mem_filter.mp hmem with ⟨_, hcond⟩
    simp at hcond
  · rw [if_neg hne, List.count_filter]
    simp [hne]

/-- Claim C9: add returns NULL and leaves the set unchanged when handed a
NULL pointer or a parameter whose name resolves to an entry already in
the map; otherwise it appends the parameter to both the safe-name map and
the ordered list, grows size by one, and returns the parameter. -/
theorem c9_add_contract (msn : String → String) (s : PluginParameterSet)
    (pOpt : Option PluginParameter) :
    (pOpt = none → psAdd msn s pOpt = (none, s)) ∧
    (∀ p, pOpt = some p →
      ((psGet msn s p.name).isSome = true → psAdd msn s pOpt = (none, s)) ∧
      ((psGet msn s p.name).isSome = false →
        psAdd msn s pOpt =
          (some p,
           ⟨s.parameterMap ++ [(getSafeName msn p, p)],
            s.parameterList ++ [p]⟩) ∧
        psSize (psAdd msn s pOpt).2 = psSize s + 1)) := by
  refine ⟨fun h => by simp [h, psAdd], fun p hp => ⟨fun hg => ?_, fun hg => ?_⟩⟩
  · subst hp
    simp [psAdd, hg]
  · subst hp
    refine ⟨by simp [psAdd, hg], ?_⟩
    simp [psAdd, hg, psSize]

/-- Claim C9 witness: adding a fresh parameter to a concrete one-element
set succeeds and appends to map and list; size grows by one. -/
theorem c9_witness :
    psAdd (fun n => n) ⟨[("a", ⟨"a"⟩)], [⟨"a"⟩]⟩ (some ⟨"b"⟩) =
      (some ⟨"b"⟩,
       ⟨[("a", ⟨"a"⟩), ("b", ⟨"b"⟩)], [⟨"a"⟩, ⟨"b"⟩]⟩) ∧
    psSize (psAdd (fun n => n) ⟨[("a", ⟨"a"⟩)], [⟨"a"⟩]⟩ (some ⟨"b"⟩)).2 =
      psSize ⟨[("a", ⟨"a"⟩)], [⟨"a"⟩]⟩ + 1 :=
  ((c9_add_contract (fun n => n) ⟨[("a", ⟨"a"⟩)], [⟨"a"⟩]⟩
      (some ⟨"b"⟩)).2 ⟨"b"⟩ rfl).2 (by decide)

/-- Claim C10: a successful setValue with a valid non-null buffer pointer
q and positive length n stores a freshly allocated pointer distinct from
q whose contents are the first n bytes of the input buffer, sets dataSize
to n, and makes getDisplayText report "(Data)"; a default-constructed
blob reports "(Null)" and has scaled value 0. -/
theorem c10_copy (h : Heap) (b : Blob) (q : Nat) (n : Nat)
    (hn : 0 < n) (hq : q < h.nextId) :
    getData (blobSetValue h b (some q) n).2 = some h.nextId ∧
    h.nextId ≠ q ∧
    (blobSetValue h b (some q) n).1.contents h.nextId =
      (h.contents q).take n ∧
    getDataSize (blobSetValue h b (some q) n).2 = n ∧
    getDisplayText (blobSetValue h b (some q) n).2 = "(Data)" ∧
    getDisplayText blobDefault = "(Null)" ∧
    getScaledValue blobDefault = 0 := by
  have hne : n ≠ 0 := Nat.pos_iff_ne_zero.mp hn
  have hcond : ((some q : Option Nat).isNone || (n == 0)) = false := by
    simp [hne]
  refine ⟨?_, by omega, ?_, ?_, ?_, rfl, rfl⟩
  · simp [blobSetValue, hcond, hne, getData]
  · simp [blobSetValue, hcond, hne]
  · simp [blobSetValue, hcond, hne, getDataSize]
  · simp [blobSetValue, hcond, hne, getDisplayText, hn]

/-- Claim C10 witness: copying two bytes out of a concrete three-byte
buffer at pointer 0 on a heap whose next allocation id is 1. -/
theorem c10_witness :
    getData (blobSetValue ⟨fun x => if x = 0 then [5, 6, 7] else [], 1⟩
        blobDefault (some 0) 2).2 = some 1 ∧
    (1 : Nat) ≠ 0 ∧
    (blobSetValue ⟨fun x => if x = 0 then [5, 6, 7] else [], 1⟩
        blobDefault (some 0) 2).1.contents 1 = [5, 6] ∧
    getDataSize (blobSetValue ⟨fun x => if x = 0 then [5, 6, 7] else [], 1⟩
        blobDefault (some 0) 2).2 = 2 ∧
    getDisplayText (blobSetValue ⟨fun x => if x = 0 then [5, 6, 7] else [], 1⟩
        blobDefault (some 0) 2).2 = "(Data)" ∧
    getDisplayText blobDefault = "(Null)" ∧
    getScaledValue blobDefault = 0 :=
  c10_copy ⟨fun x => if x = 0 then [5, 6, 7] else [], 1⟩ blobDefault 0 2
    (by decide) (by decide)

/-- Helper for claim C1: after any sequence of enqueue and drain
operations, draining what is still pending from the resulting machine
state gives the same parameter state as applying all records enqueued so
far, in order, on top of draining what was pending at the start. -/
theorem dispatch_drain_invariant (ops : List DispatchOp) (m : DispatchMachine) :
    List.foldl applySet (runDispatch m ops).values (runDispatch m ops).pending =
      List.foldl applySet (List.foldl applySet m.values m.pending)
        (enqueuedRecords ops) := by
  induction ops generalizing m with
  | nil => simp [runDispatch, enqueuedRecords]
  | cons op ops ih =>
    have hstep : runDispatch m (op :: ops) = runDispatch (dispStep m op) ops := by
      simp [runDispatch]
    rw [hstep, ih]
    cases op with
    | enq t v =>
      simp [dispStep, enqueuedRecords, List.foldl_append]
    | drain =>
      simp [dispStep, enqueuedRecords]

/-- Claim C1: for any finite sequence of set calls enqueued on a single
dispatcher, interleaved arbitrarily with drain calls, a final drain
leaves every parameter at exactly the value obtained by applying the same
set calls synchronously in enqueue order. -/
theorem c1_fifo_refinement (init : ParamState) (ops : List DispatchOp) (t : Nat) :
    (runDispatch ⟨[], init⟩ (ops ++ [DispatchOp.drain])).values t =
      synchronousRun init (enqueuedRecords ops) t := by
  have hrun : runDispatch ⟨[], init⟩ (ops ++ [DispatchOp.drain]) =
      dispStep (runDispatch ⟨[], init⟩ ops) DispatchOp.drain := by
    simp [runDispatch, List.foldl_append]
  rw [hrun]
  show List.foldl applySet (runDispatch ⟨[], init⟩ ops).values
      (runDispatch ⟨[], init⟩ ops).pending t = _
  rw [dispatch_drain_invariant]
  simp [synchronousRun]

end PluginParameters
